import Mathlib

/-!
Shallow embedding of the email-assistant control logic of
`src/email_profiler.py` (data model, sender filter, confidence-gated
context retrieval, Python-format answer rendering, draft-vs-send
dispatch, and the cancellable poll loop), together with proofs about it.

External capabilities (IMAP provider, Weaviate knowledge base) are
modelled as oracles: each embedded operation takes the data the
capability would return as an argument and additionally records, in a
trace, every call it makes into a capability.
-/

namespace EmailProfiler

/-- An email address as accessed by the code (`email_message.sender.email`). -/
structure EmailAddress where
  email : String
  deriving DecidableEq, Repr

/-- The fields of ragora's `EmailMessageModel` that the code reads:
`message_id`, `subject`, `sender.email`, `body`. -/
structure EmailMessageModel where
  message_id : String
  subject : String
  sender : EmailAddress
  body : String
  deriving DecidableEq, Repr

/-- One knowledge-base search result as consumed by
`get_answer_for_email`: `content` and `similarity_score`.
Scores are modelled as rationals. -/
structure ContextResult where
  content : String
  similarity_score : ℚ
  deriving DecidableEq, Repr

/-- One entry of the config's `answer_patterns` mapping. -/
structure AnswerPatternEntry where
  answer_pattern : String
  answer_type : String
  deriving DecidableEq, Repr

/-- The email-assistant config as used by the code
(`whitelist`, `blacklist`, `collection`, `answer_patterns`). -/
structure EmailAssistantConfig where
  whitelist : Option (List String)
  blacklist : Option (List String)
  collection : String
  answer_patterns : List (String × AnswerPatternEntry)
  deriving DecidableEq, Repr

/-- Search strategies of the knowledge-base capability;
`get_answer_for_email` uses `SearchStrategy.HYBRID`. -/
inductive SearchStrategy
  | hybrid
  | vector
  | keyword
  deriving DecidableEq, Repr

/-- A call into one of the two external capabilities. -/
inductive CapCall
  | kbCheckNewEmails (limit : Nat)
  | kbSearch (query : String) (strategy : SearchStrategy) (topK : Nat)
  | createDraft (recipient : EmailAddress) (subject : String) (body : String)
  | sendMessage (recipient : EmailAddress) (subject : String) (body : String)
  | disconnect
  | kbClose
  deriving DecidableEq, Repr

/-- Errors raised by the embedded control logic. -/
inductive FmtErr
  | keyError (key : String)
  | attrError (key : String)
  | valueError
  deriving DecidableEq, Repr

inductive AssistantError
  | configError
  | fmtError (e : FmtErr)
  deriving DecidableEq, Repr

/-! ### Sender filter (`check_new_emails`, lines 424-461)

The oracle argument `fetched` is the list that
`kbm.check_new_emails(...)` would return; the call itself is recorded
in the trace.  The whitelist/blacklist check happens before the `try`
block in the source, hence before any capability call. -/

def check_new_emails (fetched : List EmailMessageModel) (limit : Nat)
    (whitelist blacklist : Option (List String)) :
    List CapCall × Except AssistantError (List EmailMessageModel) :=
  if whitelist ≠ none ∧ blacklist ≠ none then
    ([], Except.error AssistantError.configError)
  else
    let trace := [CapCall.kbCheckNewEmails limit]
    match whitelist, blacklist with
    | none, none => (trace, Except.ok fetched)
    | some wl, _ =>
        (trace, Except.ok (fetched.filter fun m => decide (m.sender.email ∈ wl)))
    | none, some bl =>
        (trace, Except.ok (fetched.filter fun m => decide (m.sender.email ∉ bl)))

/-! ### Python `str.format` (restricted model)

`get_answer_for_email` renders the answer with
`answer_pattern.format(sender=..., context_results=...)`.  We model the
fragment of CPython's `str.format` that keyword templates exercise:
replacement fields `\x7bname\x7d` and `\x7bname.attr\x7d`, the escapes
`\x7b\x7b` / `\x7d\x7d`, a `KeyError` for a field whose first component
is not among the keyword arguments, an `AttributeError` for attribute
access (all argument values here are plain strings, which have no such
attributes), and a `ValueError` for an unbalanced brace.  Fields are
processed left to right, as CPython does; substituted values are not
re-scanned. -/

/-- Resolve one replacement field against the keyword arguments: the
part before the first `.` is the argument name, looked up first
(`KeyError` on a miss); any remaining part is an attribute chain, and
attribute access always raises (an `AttributeError`), the argument
values being plain strings. -/
def formatField (kwargs : List (String × String)) (fieldChars : List Char) :
    Except FmtErr (List Char) :=
  let key := String.mk (fieldChars.takeWhile (fun d => d ≠ '.'))
  match kwargs.lookup key with
  | none => Except.error (FmtErr.keyError key)
  | some v =>
    if '.' ∈ fieldChars then Except.error (FmtErr.attrError key)
    else Except.ok v.data

/-- Left-to-right scan of the template, fuelled (one unit per emitted
character or field; `length + 1` always suffices). -/
def formatScan (kwargs : List (String × String)) :
    Nat → List Char → Except FmtErr (List Char)
  | 0, _ => Except.error FmtErr.valueError
  | _ + 1, [] => Except.ok []
  | fuel + 1, c :: rest =>
    if c = '\x7b' then
      match rest with
      | '\x7b' :: rest2 =>
        (formatScan kwargs fuel rest2).map (fun s => '\x7b' :: s)
      | _ =>
        let fieldChars := rest.takeWhile (fun d => d ≠ '\x7d')
        match rest.dropWhile (fun d => d ≠ '\x7d') with
        | [] => Except.error FmtErr.valueError
        | _ :: rest2 =>
          match formatField kwargs fieldChars with
          | Except.error e => Except.error e
          | Except.ok v =>
            (formatScan kwargs fuel rest2).map (fun s => v ++ s)
    else if c = '\x7d' then
      match rest with
      | '\x7d' :: rest2 =>
        (formatScan kwargs fuel rest2).map (fun s => '\x7d' :: s)
      | _ => Except.error FmtErr.valueError
    else
      (formatScan kwargs fuel rest).map (fun s => c :: s)

/-- `template.format(**kwargs)` for string-valued keyword arguments. -/
def pyFormat (template : String) (kwargs : List (String × String)) :
    Except FmtErr String :=
  (formatScan kwargs (template.data.length + 1) template.data).map String.mk

/-! ### Context retrieval and answer composition
(`get_answer_for_email`, lines 464-501) -/

/-- The confidence threshold `0.5` of the gate
`context_result.similarity_score > 0.5` (stated via `mkRat` so that the
kernel can evaluate comparisons; see `similarityThreshold_eq`). -/
def similarityThreshold : ℚ := mkRat 1 2

/-- The accumulation loop over `context_results.results`:
`context_result_confident += context_result.content + "\n"` for every
result whose score passes the gate. -/
def composeContext (results : List ContextResult) : String :=
  results.foldl
    (fun acc r =>
      if similarityThreshold < r.similarity_score then acc ++ r.content ++ "\n"
      else acc)
    ""

/-- The default answer pattern literal of the source (note its first
field accesses `sender.email`, while `format` is called with
`sender=email_message.sender.email`, already a plain string). -/
def defaultAnswerPattern : String :=
  "Hello \x7bsender.email\x7d, I am the email assistant. I have found the following information for your question: \x7bcontext_results\x7d"

/-- Lines 475-479: pick the sender's `answer_pattern` when
`answer_patterns` has an entry for the sender, else the default. -/
def resolve_answer_pattern (config : EmailAssistantConfig) (sender : String) :
    String :=
  match config.answer_patterns.lookup sender with
  | some entry => entry.answer_pattern
  | none => defaultAnswerPattern

/-- Line 495: `answer_pattern.format(sender=email_message.sender.email,
context_results=context_result_confident)`. -/
def render_answer (answerPattern sender contextResults : String) :
    Except FmtErr String :=
  pyFormat answerPattern [("sender", sender), ("context_results", contextResults)]

/-- `get_answer_for_email`: resolve the pattern, clean the body via the
external preprocessor `clean`, run a hybrid top-3 search (the oracle
`search` maps the query to the results the knowledge base would
return), gate by confidence, and render.  Returns the capability-call
trace together with the answer (`none` models Python's `return None`). -/
def get_answer_for_email (clean : EmailMessageModel → String)
    (config : EmailAssistantConfig) (email_message : EmailMessageModel)
    (search : String → List ContextResult) :
    List CapCall × Except FmtErr (Option String) :=
  let answerPattern := resolve_answer_pattern config email_message.sender.email
  let emailBody := clean email_message
  let results := search emailBody
  let trace := [CapCall.kbSearch emailBody SearchStrategy.hybrid 3]
  if results.length = 0 then
    (trace, Except.ok none)
  else
    let confident := composeContext results
    if confident ≠ "" then
      (trace,
        (render_answer answerPattern email_message.sender.email confident).map
          some)
    else
      (trace, Except.ok none)

/-- Modelled from the spec: ragora's `EmailPreprocessor().clean_email_body`
is an external capability whose code is not part of this repository; per
the spec the search query is "composed from subject + body", the body
having been normalized (quote-stripping, whitespace normalization) by
the preprocessor, modelled here by the parameter `normalizeBody`. -/
def clean_email_body (normalizeBody : String → String)
    (email_message : EmailMessageModel) : String :=
  email_message.subject ++ " " ++ normalizeBody email_message.body

/-! ### Action dispatch and poll loop (`email_assistant_workflow`,
lines 504-541, with `send_answer_to_email` and `draft_answer_for_email`) -/

/-- Lines 523-528: for a non-`None` answer, look the sender up in
`answer_patterns`; when an entry exists and its `answer_type` equals
`"draft"`, create a draft, otherwise send directly; in both cases the
subject is `"RE: "` + the original subject and the body is the answer.
A `None` answer makes no call at all. -/
def dispatch_answer (config : EmailAssistantConfig)
    (email_message : EmailMessageModel) (answer : Option String) :
    List CapCall :=
  match answer with
  | none => []
  | some a =>
    if (match config.answer_patterns.lookup email_message.sender.email with
        | some entry => decide (entry.answer_type = "draft")
        | none => false) then
      [CapCall.createDraft email_message.sender
        ("RE: " ++ email_message.subject) a]
    else
      [CapCall.sendMessage email_message.sender
        ("RE: " ++ email_message.subject) a]

/-- One message of the `for email_message in new_emails` body: get the
answer (its trace is the knowledge-base search), then dispatch.  An
exception from `get_answer_for_email` aborts the iteration. -/
def process_message (clean : EmailMessageModel → String)
    (config : EmailAssistantConfig) (search : String → List ContextResult)
    (email_message : EmailMessageModel) :
    List CapCall × Option AssistantError :=
  let ga := get_answer_for_email clean config email_message search
  match ga.2 with
  | Except.error e => (ga.1, some (AssistantError.fmtError e))
  | Except.ok answer =>
    (ga.1 ++ dispatch_answer config email_message answer, none)

/-- The whole `for` loop over the filtered batch; a raised exception
propagates, skipping the remaining messages. -/
def process_messages (clean : EmailMessageModel → String)
    (config : EmailAssistantConfig) (search : String → List ContextResult) :
    List EmailMessageModel → List CapCall × Option AssistantError
  | [] => ([], none)
  | m :: rest =>
    let pm := process_message clean config search m
    match pm.2 with
    | some e => (pm.1, some e)
    | none =>
      let pms := process_messages clean config search rest
      (pm.1 ++ pms.1, pms.2)

/-- One loop iteration's external input: what the knowledge base's
`check_new_emails` would return, what each `search` query would return,
and whether `wait_with_quit` observes a `q` keystroke during the wait. -/
structure IterInput where
  fetched : List EmailMessageModel
  search : String → List ContextResult
  quit : Bool

/-- How a run of the poll loop ended: user-requested quit, an
unrecovered exception, or the end of the supplied script of iteration
inputs (the real loop would keep polling). -/
inductive LoopOutcome
  | quit
  | failed (e : AssistantError)
  | scriptEnded
  deriving DecidableEq, Repr

/-- The `while True` poll loop (lines 517-534), run against a finite
script of iteration inputs: fetch and filter, process every message,
then wait; a quit during the wait leaves the loop, an exception aborts
it, otherwise it continues with the next iteration. -/
def run_poll_loop (clean : EmailMessageModel → String)
    (config : EmailAssistantConfig) (limit : Nat) :
    List IterInput → List CapCall × LoopOutcome
  | [] => ([], LoopOutcome.scriptEnded)
  | it :: rest =>
    let ck := check_new_emails it.fetched limit config.whitelist config.blacklist
    match ck.2 with
    | Except.error e => (ck.1, LoopOutcome.failed e)
    | Except.ok new_emails =>
      let pms := process_messages clean config it.search new_emails
      match pms.2 with
      | some e => (ck.1 ++ pms.1, LoopOutcome.failed e)
      | none =>
        if it.quit then (ck.1 ++ pms.1, LoopOutcome.quit)
        else
          let lr := run_poll_loop clean config limit rest
          (ck.1 ++ pms.1 ++ lr.1, lr.2)

/-- `email_assistant_workflow` around the loop: whatever way the loop
ends, the `finally` block disconnects the email provider and closes the
knowledge-base handle. -/
def email_assistant_workflow (clean : EmailMessageModel → String)
    (config : EmailAssistantConfig) (script : List IterInput) :
    List CapCall × LoopOutcome :=
  let lr := run_poll_loop clean config 5 script
  (lr.1 ++ [CapCall.disconnect, CapCall.kbClose], lr.2)

/-- Calls that fetch, i.e. the knowledge base's `check_new_emails`. -/
def isFetch : CapCall → Bool
  | CapCall.kbCheckNewEmails _ => true
  | _ => false

/-- The two dispatch operations of the email capability. -/
def isDispatchCall : CapCall → Bool
  | CapCall.createDraft _ _ _ => true
  | CapCall.sendMessage _ _ _ => true
  | _ => false

/-- The two cleanup operations of the `finally` block. -/
def isCleanup : CapCall → Bool
  | CapCall.disconnect => true
  | CapCall.kbClose => true
  | _ => false

/-! ## Helper lemmas -/

/-- The modelled threshold is the literal `0.5` of the source. -/
lemma similarityThreshold_eq : similarityThreshold = 1 / 2 := by
  norm_num [similarityThreshold, Rat.mkRat_eq_div]

lemma composeContext_foldl_aux (rs : List ContextResult) : ∀ acc : String,
    rs.foldl
      (fun acc r =>
        if similarityThreshold < r.similarity_score then acc ++ r.content ++ "\n"
        else acc)
      acc
    = acc ++
      ((rs.filter fun r => decide (similarityThreshold < r.similarity_score)).map
        (fun r => r.content ++ "\n")).foldr (fun a b => a ++ b) "" := by
  induction rs with
  | nil => intro acc; simp [String.append_empty]
  | cons r rest ih =>
    intro acc
    rw [List.foldl_cons]
    by_cases h : similarityThreshold < r.similarity_score
    · rw [if_pos h, ih, List.filter_cons_of_pos (by simpa using h)]
      simp [String.append_assoc]
    · rw [if_neg h, ih, List.filter_cons_of_neg (by simpa using h)]

/-- The accumulation loop concatenates, in order, `content ++ "\n"` for
exactly the results whose score passes the strict gate. -/
lemma composeContext_eq (rs : List ContextResult) :
    composeContext rs
    = ((rs.filter fun r => decide (similarityThreshold < r.similarity_score)).map
        (fun r => r.content ++ "\n")).foldr (fun a b => a ++ b) "" := by
  have := composeContext_foldl_aux rs ""
  simpa [composeContext, String.empty_append] using this

lemma composeContext_eq_empty (rs : List ContextResult)
    (h : ∀ r ∈ rs, ¬ similarityThreshold < r.similarity_score) :
    composeContext rs = "" := by
  rw [composeContext_eq]
  have hf : rs.filter (fun r => decide (similarityThreshold < r.similarity_score)) = [] := by
    rw [List.filter_eq_nil_iff]
    intro a ha
    simpa using h a ha
  rw [hf]
  rfl

/-- An empty search result, or a batch in which no result passes the
gate, makes `get_answer_for_email` return `None`. -/
lemma get_answer_none_of_gate (clean : EmailMessageModel → String)
    (config : EmailAssistantConfig) (msg : EmailMessageModel)
    (search : String → List ContextResult)
    (h : search (clean msg) = [] ∨
      ∀ r ∈ search (clean msg), ¬ similarityThreshold < r.similarity_score) :
    (get_answer_for_email clean config msg search).2 = Except.ok none := by
  rcases h with h | h
  · simp [get_answer_for_email, h]
  · by_cases hlen : (search (clean msg)).length = 0
    · simp [get_answer_for_email, hlen]
    · have hcc : composeContext (search (clean msg)) = "" :=
        composeContext_eq_empty _ h
      simp [get_answer_for_email, hlen, hcc]

/-- The trace of `get_answer_for_email` is exactly one hybrid top-3
knowledge-base search for the cleaned body, on every control path. -/
lemma get_answer_trace (clean : EmailMessageModel → String)
    (config : EmailAssistantConfig) (msg : EmailMessageModel)
    (search : String → List ContextResult) :
    (get_answer_for_email clean config msg search).1
      = [CapCall.kbSearch (clean msg) SearchStrategy.hybrid 3] := by
  simp only [get_answer_for_email]
  split
  · rfl
  · split <;> rfl

/-! ## Claim theorems -/

set_option maxRecDepth 8192

/-- Claim C1: the composed context includes a result's content iff its
similarity score is strictly greater than 0.5, the confident contents
being concatenated in search order, each followed by a newline; and if
the search returns zero results, or no result passes the gate,
`get_answer_for_email` returns `None` so no answer is composed. -/
theorem c1_confidence_gate :
    (∀ rs : List ContextResult,
      composeContext rs
        = ((rs.filter fun r => decide (similarityThreshold < r.similarity_score)).map
            (fun r => r.content ++ "\n")).foldr (fun a b => a ++ b) "")
    ∧ ∀ (clean : EmailMessageModel → String) (config : EmailAssistantConfig)
        (msg : EmailMessageModel) (search : String → List ContextResult),
        (search (clean msg) = [] ∨
          ∀ r ∈ search (clean msg), ¬ similarityThreshold < r.similarity_score) →
        (get_answer_for_email clean config msg search).2 = Except.ok none :=
  ⟨composeContext_eq, get_answer_none_of_gate⟩

/-- Witness for C1: a score of exactly 1/2 is excluded and 5001/10000
is included, and an empty search yields `None`. -/
theorem c1_confidence_gate_witness :
    composeContext [⟨"A", mkRat 1 2⟩, ⟨"B", mkRat 5001 10000⟩] = "B\n"
    ∧ ((fun _ : String => ([] : List ContextResult)) "q" = [] ∨
        ∀ r ∈ ([] : List ContextResult), ¬ similarityThreshold < r.similarity_score)
    ∧ (get_answer_for_email (fun m => m.body) ⟨none, none, "Email", []⟩
        ⟨"id1", "Q", ⟨"a@x.com"⟩, "body"⟩ (fun _ => [])).2 = Except.ok none :=
  ⟨by rw [c1_confidence_gate.1]; decide, Or.inl rfl,
    c1_confidence_gate.2 _ _ _ _ (Or.inl rfl)⟩

/-- Counterexample to C2 as stated: the format call binds the keywords
`sender` and `context_results`, so the claim's example pattern
`"Hi \x7bsender\x7d: \x7bcontext\x7d"` raises a `KeyError` instead of
yielding `"Hi a@x.com: C"`; and for a sender absent from the mapping the
code's default template accesses `sender.email` on a plain string, so it
raises an `AttributeError` instead of composing the claimed greeting. -/
theorem c2_counterexample :
    render_answer "Hi \x7bsender\x7d: \x7bcontext\x7d" "a@x.com" "C"
        = Except.error (FmtErr.keyError "context")
    ∧ render_answer "Hi \x7bsender\x7d: \x7bcontext\x7d" "a@x.com" "C"
        ≠ Except.ok "Hi a@x.com: C"
    ∧ render_answer (resolve_answer_pattern ⟨none, none, "Email", []⟩ "a@x.com")
        "a@x.com" "C"
        = Except.error (FmtErr.attrError "sender") :=
  ⟨rfl, fun h => Except.noConfusion h, rfl⟩

/-- Claim C2 as amended: composing formats the resolved pattern with
keyword arguments `sender` = sender address and `context_results` =
context, so an entry's pattern written against these names is rendered
by substitution (`"Hi \x7bsender\x7d: \x7bcontext_results\x7d"` yields
`"Hi " ++ sender ++ ": " ++ context`); when the sender is absent the
default template is the source's
`"Hello \x7bsender.email\x7d, ... : \x7bcontext_results\x7d"`, whose
rendering always fails with an `AttributeError` because `sender` is
bound to the plain address string. -/
theorem c2_amended :
    (∀ sender context : String,
      render_answer "Hi \x7bsender\x7d: \x7bcontext_results\x7d" sender context
        = Except.ok ("Hi " ++ sender ++ ": " ++ context))
    ∧ (∀ sender context : String,
      render_answer defaultAnswerPattern sender context
        = Except.error (FmtErr.attrError "sender"))
    ∧ (∀ (config : EmailAssistantConfig) (sender : String)
        (entry : AnswerPatternEntry),
        config.answer_patterns.lookup sender = some entry →
        resolve_answer_pattern config sender = entry.answer_pattern)
    ∧ (∀ (config : EmailAssistantConfig) (sender : String),
        config.answer_patterns.lookup sender = none →
        resolve_answer_pattern config sender = defaultAnswerPattern) := by
  refine ⟨?_, ?_, ?_, ?_⟩
  · intro sender context
    simp [render_answer, pyFormat, formatScan, formatField, List.lookup, Except.map,
      String.ext_iff, String.data_append]
  · intro sender context
    simp [render_answer, pyFormat, defaultAnswerPattern, formatScan, formatField,
      List.lookup, Except.map]
  · intro config sender entry h
    simp [resolve_answer_pattern, h]
  · intro config sender h
    simp [resolve_answer_pattern, h]

/-- Witness for the amended C2: a configured pattern for `a@x.com` is
resolved and rendered to `"Hi a@x.com: C"`. -/
theorem c2_amended_witness :
    (([("a@x.com",
        (⟨"Hi \x7bsender\x7d: \x7bcontext_results\x7d", "send"⟩ : AnswerPatternEntry))]
      : List (String × AnswerPatternEntry)).lookup "a@x.com"
        = some ⟨"Hi \x7bsender\x7d: \x7bcontext_results\x7d", "send"⟩)
    ∧ resolve_answer_pattern
        ⟨some ["a@x.com"], none, "Email",
          [("a@x.com", ⟨"Hi \x7bsender\x7d: \x7bcontext_results\x7d", "send"⟩)]⟩
        "a@x.com"
        = "Hi \x7bsender\x7d: \x7bcontext_results\x7d"
    ∧ render_answer "Hi \x7bsender\x7d: \x7bcontext_results\x7d" "a@x.com" "C"
        = Except.ok "Hi a@x.com: C" :=
  ⟨rfl,
    c2_amended.2.2.1
      ⟨some ["a@x.com"], none, "Email",
        [("a@x.com", ⟨"Hi \x7bsender\x7d: \x7bcontext_results\x7d", "send"⟩)]⟩
      "a@x.com" ⟨"Hi \x7bsender\x7d: \x7bcontext_results\x7d", "send"⟩ rfl,
    (c2_amended.1 "a@x.com" "C").trans rfl⟩

/-- Claim C3: with only a whitelist, the filter returns exactly the
subsequence whose sender address is in the set (original order
preserved); with only a blacklist, exactly the complementary
subsequence; with neither, all messages unchanged. -/
theorem c3_filter_modes :
    ∀ (fetched : List EmailMessageModel) (limit : Nat) (S : List String),
      (check_new_emails fetched limit (some S) none).2
          = Except.ok (fetched.filter fun m => decide (m.sender.email ∈ S))
      ∧ (check_new_emails fetched limit none (some S)).2
          = Except.ok (fetched.filter fun m => decide (m.sender.email ∉ S))
      ∧ (check_new_emails fetched limit none none).2 = Except.ok fetched
      ∧ (fetched.filter fun m => decide (m.sender.email ∈ S)).Sublist fetched
      ∧ (fetched.filter fun m => decide (m.sender.email ∉ S)).Sublist fetched
      ∧ (∀ m, m ∈ fetched.filter (fun m => decide (m.sender.email ∈ S)) ↔
            m ∈ fetched ∧ m.sender.email ∈ S)
      ∧ (∀ m, m ∈ fetched.filter (fun m => decide (m.sender.email ∉ S)) ↔
            m ∈ fetched ∧ m.sender.email ∉ S) := by
  intro fetched limit S
  refine ⟨?_, ?_, ?_, List.filter_sublist _, List.filter_sublist _, ?_, ?_⟩
  · simp [check_new_emails]
  · simp [check_new_emails]
  · simp [check_new_emails]
  · intro m; simp [List.mem_filter]
  · intro m; simp [List.mem_filter]

/-- Claim C4: invoking the sender filter with a non-empty whitelist and
a non-empty blacklist simultaneously fails with the configuration
error, and the capability-call trace is empty — the error surfaces
before any email fetch or knowledge-base call. -/
theorem c4_both_lists_error :
    ∀ (fetched : List EmailMessageModel) (limit : Nat) (S1 S2 : List String),
      S1 ≠ [] → S2 ≠ [] →
      check_new_emails fetched limit (some S1) (some S2)
        = ([], Except.error AssistantError.configError) := by
  intro fetched limit S1 S2 _ _
  simp [check_new_emails]

/-- Witness for C4 at two concrete non-empty lists. -/
theorem c4_both_lists_error_witness :
    (["a@x.com"] : List String) ≠ [] ∧ (["b@x.com"] : List String) ≠ []
    ∧ check_new_emails [] 5 (some ["a@x.com"]) (some ["b@x.com"])
        = ([], Except.error AssistantError.configError) :=
  ⟨by decide, by decide,
    c4_both_lists_error [] 5 ["a@x.com"] ["b@x.com"] (by decide) (by decide)⟩

/-- Claim C10: the filter's configuration error fires whenever both
arguments are non-null, with no non-emptiness requirement — even two
empty lists trigger it — and, the poll loop passing both configured
values to the filter on every iteration, a config with both keys set
makes the very first iteration fail with the configuration error, for
every iteration input. -/
theorem c10_nonnull_only_check :
    (∀ (fetched : List EmailMessageModel) (limit : Nat) (S1 S2 : List String),
      check_new_emails fetched limit (some S1) (some S2)
        = ([], Except.error AssistantError.configError))
    ∧ ∀ (clean : EmailMessageModel → String) (config : EmailAssistantConfig)
        (it : IterInput) (rest : List IterInput) (S1 S2 : List String),
        config.whitelist = some S1 → config.blacklist = some S2 →
        run_poll_loop clean config 5 (it :: rest)
          = ([], LoopOutcome.failed AssistantError.configError) := by
  constructor
  · intro fetched limit S1 S2
    simp [check_new_emails]
  · intro clean config it rest S1 S2 hw hb
    simp [run_poll_loop, check_new_emails, hw, hb]

/-- Witness for C10: both lists empty still abort the loop's first
iteration with the configuration error. -/
theorem c10_nonnull_only_check_witness :
    (⟨some [], some [], "Email", []⟩ : EmailAssistantConfig).whitelist = some []
    ∧ (⟨some [], some [], "Email", []⟩ : EmailAssistantConfig).blacklist = some []
    ∧ run_poll_loop (fun m => m.body) ⟨some [], some [], "Email", []⟩ 5
        [⟨[], fun _ => [], false⟩]
        = ([], LoopOutcome.failed AssistantError.configError) :=
  ⟨rfl, rfl,
    c10_nonnull_only_check.2 (fun m => m.body) ⟨some [], some [], "Email", []⟩
      ⟨[], fun _ => [], false⟩ [] [] [] rfl rfl⟩

/-- Claim C5: for a composed (non-`None`) answer the dispatcher makes
exactly one email-capability call, with subject `"RE: "` + the original
subject and the answer as body; it is the draft-creation call precisely
when the sender has an `answer_patterns` entry whose `answer_type` is
`"draft"`, and the direct-send call in every other case. -/
theorem c5_dispatch_routing :
    ∀ (config : EmailAssistantConfig) (msg : EmailMessageModel) (a : String),
      (dispatch_answer config msg (some a)
          = [CapCall.createDraft msg.sender ("RE: " ++ msg.subject) a]
        ∨ dispatch_answer config msg (some a)
          = [CapCall.sendMessage msg.sender ("RE: " ++ msg.subject) a])
      ∧ ((∃ entry, config.answer_patterns.lookup msg.sender.email = some entry
            ∧ entry.answer_type = "draft") ↔
          dispatch_answer config msg (some a)
            = [CapCall.createDraft msg.sender ("RE: " ++ msg.subject) a]) := by
  intro config msg a
  cases hl : config.answer_patterns.lookup msg.sender.email with
  | none =>
    refine ⟨Or.inr (by simp [dispatch_answer, hl]), ?_, ?_⟩
    · rintro ⟨entry, he, -⟩
      exact Option.noConfusion he
    · intro h
      simp [dispatch_answer, hl] at h
  | some entry =>
    by_cases hd : entry.answer_type = "draft"
    · refine ⟨Or.inl (by simp [dispatch_answer, hl, hd]), ?_, ?_⟩
      · intro _
        simp [dispatch_answer, hl, hd]
      · intro _
        exact ⟨entry, rfl, hd⟩
    · refine ⟨Or.inr (by simp [dispatch_answer, hl, hd]), ?_, ?_⟩
      · rintro ⟨entry2, he, hd2⟩
        cases he
        exact absurd hd2 hd
      · intro h
        simp [dispatch_answer, hl, hd] at h

/-- Witness for C5: a `"draft"` entry makes a draft, an absent entry
sends directly. -/
theorem c5_dispatch_routing_witness :
    dispatch_answer ⟨none, none, "Email", [("a@x.com", ⟨"p", "draft"⟩)]⟩
        ⟨"id1", "Q", ⟨"a@x.com"⟩, "b"⟩ (some "ans")
      = [CapCall.createDraft ⟨"a@x.com"⟩ ("RE: " ++ "Q") "ans"]
    ∧ dispatch_answer ⟨none, none, "Email", []⟩
        ⟨"id1", "Q", ⟨"a@x.com"⟩, "b"⟩ (some "ans")
      = [CapCall.sendMessage ⟨"a@x.com"⟩ ("RE: " ++ "Q") "ans"] := by
  constructor
  · exact (c5_dispatch_routing ⟨none, none, "Email", [("a@x.com", ⟨"p", "draft"⟩)]⟩
      ⟨"id1", "Q", ⟨"a@x.com"⟩, "b"⟩ "ans").2.mp ⟨⟨"p", "draft"⟩, rfl, rfl⟩
  · have h5 := c5_dispatch_routing ⟨none, none, "Email", []⟩
      ⟨"id1", "Q", ⟨"a@x.com"⟩, "b"⟩ "ans"
    rcases h5.1 with h | h
    · exfalso
      rcases h5.2.mpr h with ⟨e, he, -⟩
      exact Option.noConfusion he
    · exact h

/-- Claim C6: for every processed message the knowledge-base call is a
hybrid-strategy top-3 search whose query is the external preprocessor's
cleaning of the message, i.e. the subject together with the normalized
body (the preprocessor itself being spec-modelled). -/
theorem c6_search_call :
    ∀ (normalizeBody : String → String) (config : EmailAssistantConfig)
      (msg : EmailMessageModel) (search : String → List ContextResult),
      (get_answer_for_email (clean_email_body normalizeBody) config msg search).1
        = [CapCall.kbSearch (clean_email_body normalizeBody msg)
            SearchStrategy.hybrid 3]
      ∧ clean_email_body normalizeBody msg
        = msg.subject ++ " " ++ normalizeBody msg.body := by
  intro normalizeBody config msg search
  exact ⟨get_answer_trace _ _ _ _, rfl⟩

/-- Claim C7: when the composed answer is `None` the dispatcher makes
no email-capability call at all — processing the message leaves only
the retrieval search in the trace, and nothing in it is a draft or
send call. -/
theorem c7_none_is_noop :
    ∀ (clean : EmailMessageModel → String) (config : EmailAssistantConfig)
      (search : String → List ContextResult) (msg : EmailMessageModel),
      (get_answer_for_email clean config msg search).2 = Except.ok none →
      dispatch_answer config msg none = []
      ∧ process_message clean config search msg
          = ((get_answer_for_email clean config msg search).1, none)
      ∧ ∀ c ∈ (process_message clean config search msg).1,
          isDispatchCall c = false := by
  intro clean config search msg h
  have hpm : process_message clean config search msg
      = ((get_answer_for_email clean config msg search).1, none) := by
    unfold process_message
    cases hga : get_answer_for_email clean config msg search with
    | mk t r =>
      rw [hga] at h
      simp at h
      subst h
      simp [dispatch_answer]
  refine ⟨rfl, hpm, ?_⟩
  intro c hc
  rw [hpm, get_answer_trace] at hc
  simp at hc
  subst hc
  rfl

/-- Witness for C7: an empty search yields a `None` answer and the
processing trace holds nothing but the search call. -/
theorem c7_none_is_noop_witness :
    (get_answer_for_email (fun m => m.body) ⟨none, none, "Email", []⟩
        ⟨"id1", "Q", ⟨"a@x.com"⟩, "b"⟩ (fun _ => [])).2 = Except.ok none
    ∧ process_message (fun m => m.body) ⟨none, none, "Email", []⟩ (fun _ => [])
        ⟨"id1", "Q", ⟨"a@x.com"⟩, "b"⟩
      = ([CapCall.kbSearch "b" SearchStrategy.hybrid 3], none) :=
  ⟨rfl,
    ((c7_none_is_noop (fun m => m.body) ⟨none, none, "Email", []⟩ (fun _ => [])
      ⟨"id1", "Q", ⟨"a@x.com"⟩, "b"⟩ rfl).2.1).trans rfl⟩

lemma check_trace_mem (f : List EmailMessageModel) (l : Nat)
    (w b : Option (List String)) :
    ∀ c ∈ (check_new_emails f l w b).1, c = CapCall.kbCheckNewEmails l := by
  intro c hc
  unfold check_new_emails at hc
  by_cases hcond : w ≠ none ∧ b ≠ none
  · rw [if_pos hcond] at hc
    simp at hc
  · rw [if_neg hcond] at hc
    split at hc <;> simpa using hc

lemma check_trace_ok (f : List EmailMessageModel) (l : Nat)
    (w b : Option (List String)) (msgs : List EmailMessageModel)
    (h : (check_new_emails f l w b).2 = Except.ok msgs) :
    (check_new_emails f l w b).1 = [CapCall.kbCheckNewEmails l] := by
  unfold check_new_emails at h ⊢
  by_cases hcond : w ≠ none ∧ b ≠ none
  · rw [if_pos hcond] at h
    simp at h
  · rw [if_neg hcond] at h ⊢
    split <;> rfl

lemma dispatch_not_cleanup (config : EmailAssistantConfig)
    (msg : EmailMessageModel) (ans : Option String) :
    ∀ c ∈ dispatch_answer config msg ans,
      isCleanup c = false ∧ isFetch c = false := by
  intro c hc
  cases ans with
  | none => simp [dispatch_answer] at hc
  | some a =>
    simp only [dispatch_answer] at hc
    split at hc
    · simp at hc
      subst hc
      exact ⟨rfl, rfl⟩
    · simp at hc
      subst hc
      exact ⟨rfl, rfl⟩

lemma process_message_not_cleanup (clean : EmailMessageModel → String)
    (config : EmailAssistantConfig) (search : String → List ContextResult)
    (msg : EmailMessageModel) :
    ∀ c ∈ (process_message clean config search msg).1,
      isCleanup c = false ∧ isFetch c = false := by
  intro c hc
  simp only [process_message] at hc
  split at hc
  · rw [get_answer_trace] at hc
    simp at hc
    subst hc
    exact ⟨rfl, rfl⟩
  · rw [get_answer_trace] at hc
    simp at hc
    rcases hc with hc | hc
    · subst hc
      exact ⟨rfl, rfl⟩
    · exact dispatch_not_cleanup config msg _ c hc

lemma process_messages_not_cleanup (clean : EmailMessageModel → String)
    (config : EmailAssistantConfig) (search : String → List ContextResult) :
    ∀ ms : List EmailMessageModel,
      ∀ c ∈ (process_messages clean config search ms).1,
        isCleanup c = false ∧ isFetch c = false := by
  intro ms
  induction ms with
  | nil => intro c hc; simp [process_messages] at hc
  | cons m rest ih =>
    intro c hc
    simp only [process_messages] at hc
    split at hc
    · exact process_message_not_cleanup clean config search m c hc
    · simp at hc
      rcases hc with hc | hc
      · exact process_message_not_cleanup clean config search m c hc
      · exact ih c hc

lemma run_poll_loop_not_cleanup (clean : EmailMessageModel → String)
    (config : EmailAssistantConfig) (limit : Nat) :
    ∀ script : List IterInput,
      ∀ c ∈ (run_poll_loop clean config limit script).1, isCleanup c = false := by
  intro script
  induction script with
  | nil => intro c hc; simp [run_poll_loop] at hc
  | cons it rest ih =>
    intro c hc
    simp only [run_poll_loop] at hc
    split at hc
    · have := check_trace_mem it.fetched limit config.whitelist config.blacklist c hc
      subst this
      rfl
    · split at hc
      · simp at hc
        rcases hc with hc | hc
        · have := check_trace_mem it.fetched limit config.whitelist config.blacklist c hc
          subst this
          rfl
        · exact (process_messages_not_cleanup clean config it.search _ c hc).1
      · by_cases hq : it.quit
        · rw [if_pos hq] at hc
          simp at hc
          rcases hc with hc | hc
          · have := check_trace_mem it.fetched limit config.whitelist config.blacklist c hc
            subst this
            rfl
          · exact (process_messages_not_cleanup clean config it.search _ c hc).1
        · rw [if_neg hq] at hc
          simp at hc
          rcases hc with hc | hc | hc
          · have := check_trace_mem it.fetched limit config.whitelist config.blacklist c hc
            subst this
            rfl
          · exact (process_messages_not_cleanup clean config it.search _ c hc).1
          · exact ih c hc



/-- Claim C8: on every exit path of the poll loop — quit, an
unrecovered exception, or the end of the iteration script — the
workflow's trace ends with the cleanup pair (email disconnect followed
by knowledge-base close), the rest of the trace holds no cleanup call,
and each cleanup call appears exactly once. -/
theorem c8_cleanup_on_every_exit :
    ∀ (clean : EmailMessageModel → String) (config : EmailAssistantConfig)
      (script : List IterInput),
      ∃ t,
        email_assistant_workflow clean config script
          = (t ++ [CapCall.disconnect, CapCall.kbClose],
              (run_poll_loop clean config 5 script).2)
        ∧ (∀ c ∈ t, isCleanup c = false)
        ∧ (email_assistant_workflow clean config script).1.count
            CapCall.disconnect = 1
        ∧ (email_assistant_workflow clean config script).1.count
            CapCall.kbClose = 1 := by
  intro clean config script
  have hd0 : (run_poll_loop clean config 5 script).1.count CapCall.disconnect = 0 :=
    List.count_eq_zero.mpr (fun hmem => by
      have := run_poll_loop_not_cleanup clean config 5 script _ hmem
      simp [isCleanup] at this)
  have hk0 : (run_poll_loop clean config 5 script).1.count CapCall.kbClose = 0 :=
    List.count_eq_zero.mpr (fun hmem => by
      have := run_poll_loop_not_cleanup clean config 5 script _ hmem
      simp [isCleanup] at this)
  refine ⟨(run_poll_loop clean config 5 script).1, rfl,
    run_poll_loop_not_cleanup clean config 5 script, ?_, ?_⟩
  · show ((run_poll_loop clean config 5 script).1
        ++ [CapCall.disconnect, CapCall.kbClose]).count CapCall.disconnect = 1
    rw [List.count_append, hd0]
    decide
  · show ((run_poll_loop clean config 5 script).1
        ++ [CapCall.disconnect, CapCall.kbClose]).count CapCall.kbClose = 1
    rw [List.count_append, hk0]
    decide

/-- Claim C9: if the quit signal is observed during the wait of an
iteration that completed normally, the loop terminates with outcome
quit without touching the rest of the script — in particular without
performing another fetch (the trace holds exactly one
`kbCheckNewEmails` call) — and the cleanup pair runs exactly once. -/
theorem c9_quit_no_refetch :
    ∀ (clean : EmailMessageModel → String) (config : EmailAssistantConfig)
      (it : IterInput) (rest : List IterInput),
      it.quit = true →
      (run_poll_loop clean config 5 [it]).2 = LoopOutcome.quit →
      run_poll_loop clean config 5 (it :: rest) = run_poll_loop clean config 5 [it]
      ∧ (run_poll_loop clean config 5 (it :: rest)).1.countP
          (fun c => isFetch c) = 1
      ∧ (email_assistant_workflow clean config (it :: rest)).1.count
          CapCall.disconnect = 1
      ∧ (email_assistant_workflow clean config (it :: rest)).1.count
          CapCall.kbClose = 1 := by
  intro clean config it rest hq hquit
  cases hck : (check_new_emails it.fetched 5 config.whitelist config.blacklist).2 with
  | error e =>
    exfalso
    simp [run_poll_loop, hck] at hquit
  | ok msgs =>
    cases hpm : (process_messages clean config it.search msgs).2 with
    | some e =>
      exfalso
      simp [run_poll_loop, hck, hpm] at hquit
    | none =>
      have hckt : (check_new_emails it.fetched 5 config.whitelist config.blacklist).1
          = [CapCall.kbCheckNewEmails 5] :=
        check_trace_ok it.fetched 5 config.whitelist config.blacklist msgs hck
      have hrun1 : run_poll_loop clean config 5 [it]
          = ((check_new_emails it.fetched 5 config.whitelist config.blacklist).1
              ++ (process_messages clean config it.search msgs).1,
             LoopOutcome.quit) := by
        simp [run_poll_loop, hck, hpm, hq]
      have hrun2 : run_poll_loop clean config 5 (it :: rest)
          = run_poll_loop clean config 5 [it] := by
        rw [hrun1]
        simp [run_poll_loop, hck, hpm, hq]
      have hpmf : (process_messages clean config it.search msgs).1.countP
          (fun c => isFetch c) = 0 :=
        List.countP_eq_zero.mpr (fun c hc => by
          have := (process_messages_not_cleanup clean config it.search msgs c hc).2
          simp [this])
      have hpmd : (process_messages clean config it.search msgs).1.count
          CapCall.disconnect = 0 :=
        List.count_eq_zero.mpr (fun hmem => by
          have := (process_messages_not_cleanup clean config it.search msgs _ hmem).1
          simp [isCleanup] at this)
      have hpmk : (process_messages clean config it.search msgs).1.count
          CapCall.kbClose = 0 :=
        List.count_eq_zero.mpr (fun hmem => by
          have := (process_messages_not_cleanup clean config it.search msgs _ hmem).1
          simp [isCleanup] at this)
      have hw : email_assistant_workflow clean config (it :: rest)
          = ((run_poll_loop clean config 5 (it :: rest)).1
              ++ [CapCall.disconnect, CapCall.kbClose],
             (run_poll_loop clean config 5 (it :: rest)).2) := rfl
      refine ⟨hrun2, ?_, ?_, ?_⟩
      · rw [hrun2, hrun1]
        simp only [List.countP_append, hckt, hpmf]
        decide
      · rw [hw, hrun2, hrun1]
        simp only [List.count_append, hckt, hpmd]
        decide
      · rw [hw, hrun2, hrun1]
        simp only [List.count_append, hckt, hpmk]
        decide

/-- Witness for C9 at a concrete quitting iteration followed by a
further scripted iteration that is never entered. -/
theorem c9_quit_no_refetch_witness :
    (⟨[], fun _ => [], true⟩ : IterInput).quit = true
    ∧ (run_poll_loop (fun m => m.body) ⟨none, none, "Email", []⟩ 5
        [⟨[], fun _ => [], true⟩]).2 = LoopOutcome.quit
    ∧ run_poll_loop (fun m => m.body) ⟨none, none, "Email", []⟩ 5
        [⟨[], fun _ => [], true⟩, ⟨[], fun _ => [], false⟩]
      = run_poll_loop (fun m => m.body) ⟨none, none, "Email", []⟩ 5
        [⟨[], fun _ => [], true⟩]
    ∧ (email_assistant_workflow (fun m => m.body) ⟨none, none, "Email", []⟩
        [⟨[], fun _ => [], true⟩, ⟨[], fun _ => [], false⟩]).1.count
        CapCall.disconnect = 1 :=
  ⟨rfl, rfl,
    (c9_quit_no_refetch (fun m => m.body) ⟨none, none, "Email", []⟩
      ⟨[], fun _ => [], true⟩ [⟨[], fun _ => [], false⟩] rfl rfl).1,
    (c9_quit_no_refetch (fun m => m.body) ⟨none, none, "Email", []⟩
      ⟨[], fun _ => [], true⟩ [⟨[], fun _ => [], false⟩] rfl rfl).2.2.1⟩

end EmailProfiler
